import Mathlib

/-!
Verification of the babypi process-supervision and media-pipeline core.

This file gives a shallow embedding, in Lean 4, of the parts of the
repository that the specification claims are about:

* `src/process_control.rs` — the `ProcessControl` wrapper around a spawned
  OS process (stop/kill signalling, the one-shot exit receiver);
* `src/audio_monitor.rs` — the audio monitor's bootstrap retry loop, the
  per-window RMS trigger decision and `calculate_rms`;
* `src/live_stream.rs` — the `LiveStreamState` bootstrap/stop/reset state
  transitions, the watchdog retry loop, the `LiveStream` start/stop wrapper,
  and the tapped relay (`tapped_io_pipe`).

Conventions of the embedding:

* tokio tasks are represented by numeric task ids; spawning and aborting
  are tracked explicitly where a claim depends on task lifetimes;
* `f32` sample values and RMS thresholds are modelled as exact rationals
  (`ℚ`), and the square root in `calculate_rms` as the real square root;
* OS process liveness is a predicate `alive : Nat → Bool` supplied to the
  model of the `kill` syscall, which fails (ESRCH) on a dead pid exactly as
  `nix::sys::signal::kill` does;
* fallible operations return `Except String` mirroring `anyhow::Result`.
-/

namespace BabyPi

/-! ## ProcessControl (src/process_control.rs) -/

/-- Exit payload delivered through the one-shot exit channel
(`ProcessExit` in process_control.rs). -/
structure ProcessExit where
  code : Int
  message : Option String
deriving DecidableEq

/-- Model of `ProcessControl` (process_control.rs lines 40-48).  The two
background tasks (stderr logger and exit waiter) are concurrency and are not
tracked beyond the one-shot receiver they feed; the receiver itself is
modelled by a numeric id held in the `exit_rx` slot. -/
structure ProcessControl where
  id : String
  pid : Nat
  exit_rx : Option Nat
  stopped : Bool
deriving DecidableEq

/-- The two signals `ProcessControl` can deliver. -/
inductive ProcessSignal
  | SIGINT
  | SIGTERM
deriving DecidableEq

def ProcessSignal.name : ProcessSignal → String
  | .SIGINT => "SIGINT"
  | .SIGTERM => "SIGTERM"

/-- Model of `ProcessControl::new` (process_control.rs lines 51-131): fails
when the OS reported no pid (`child.id()` returned `None`) or when stderr was
not capturable; otherwise returns a handle whose one-shot exit receiver is
present (`exit_rx = Some(..)`) and whose `stopped` flag is clear. -/
def ProcessControl.new (id : String) (pid? : Option Nat) (has_stderr : Bool) :
    Except String ProcessControl :=
  match pid? with
  | none => Except.error "Failed to resolve child process PID"
  | some pid =>
    if has_stderr then
      Except.ok { id := id, pid := pid, exit_rx := some 0, stopped := false }
    else
      Except.error ("Failed to capture child process output for " ++ id)

/-- Model of the `nix::sys::signal::kill` syscall: delivery succeeds iff a
process with the given pid exists; otherwise the syscall fails with ESRCH. -/
def kill_syscall (alive : Nat → Bool) (pid : Nat) (_sig : ProcessSignal) : Bool :=
  alive pid

/-- Model of `ProcessControl::send_signal_inner` (process_control.rs lines
155-165): `kill(pid, sig).map_err(..)` — every syscall failure, including
ESRCH for a process that is already gone, is surfaced as an error. -/
def ProcessControl.send_signal_inner (alive : Nat → Bool) (pc : ProcessControl)
    (sig : ProcessSignal) : Except String Unit :=
  if kill_syscall alive pc.pid sig then
    Except.ok ()
  else
    Except.error ("Error sending " ++ sig.name ++ " to process with PID " ++
      toString pc.pid ++ ": ESRCH")

/-- Model of `ProcessControl::stop` (process_control.rs lines 145-148):
marks `stopped` and sends SIGINT.  Returns the updated handle and the signal
delivery result. -/
def ProcessControl.stop (alive : Nat → Bool) (pc : ProcessControl) :
    ProcessControl × Except String Unit :=
  let pc' := { pc with stopped := true }
  (pc', pc'.send_signal_inner alive ProcessSignal.SIGINT)

/-- Model of `ProcessControl::kill` (process_control.rs lines 150-153):
marks `stopped` and sends SIGTERM. -/
def ProcessControl.kill (alive : Nat → Bool) (pc : ProcessControl) :
    ProcessControl × Except String Unit :=
  let pc' := { pc with stopped := true }
  (pc', pc'.send_signal_inner alive ProcessSignal.SIGTERM)

/-- Model of `ProcessControl::exit_rx` (process_control.rs lines 141-143):
`self.exit_rx.take()` — returns whatever is in the slot and leaves `None`
behind.  Total: no panic on any input. -/
def ProcessControl.exit_rx_take (pc : ProcessControl) : Option Nat × ProcessControl :=
  (pc.exit_rx, { pc with exit_rx := none })

/-! ## Events (src/telemetry/events.rs) -/

/-- The domain event type (`Event` in telemetry/events.rs).  The image
payload of `SnapshotData` is modelled as raw bytes; the `f32` RMS payload of
`AudioMonitor` as an exact rational. -/
inductive Event
  | Test (s : String)
  | ServiceStatus (service : String) (status : String)
  | SnapshotRequest
  | SnapshotData (data : List Nat)
  | SnapshotUpdated (filesize : Nat) (width : Nat) (height : Nat)
  | AudioMonitor (rms : ℚ)
deriving DecidableEq

/-! ## AudioMonitor (src/audio_monitor.rs) -/

def AUDIO_MONITOR_BOOTSTRAP_RETRY : Nat := 10

/-- Model of `context.rms_threshold.is_some_and(|rms_t| rms > rms_t)`
(audio_monitor.rs line 209 and the identical lines 234 and 266). -/
def rms_trigger (rms_threshold : Option ℚ) (rms : ℚ) : Bool :=
  match rms_threshold with
  | some rms_t => decide (rms_t < rms)
  | none => false

/-- Events published on the bus by one iteration of the capture loop
(audio_monitor.rs lines 207-217; the F32le and S32le branches at lines
232-242 and 264-274 are identical): when the trigger fires and a channel is
attached, an `Event::AudioMonitor` carrying the window's RMS is sent;
otherwise only a debug log happens and nothing is published. -/
def audio_window_events (channel : Option Unit) (rms_threshold : Option ℚ)
    (rms : ℚ) : List Event :=
  if rms_trigger rms_threshold rms then
    match channel with
    | some _ => [Event.AudioMonitor rms]
    | none => []
  else []

/-- Model of the `sum_of_squares` accumulation in `calculate_rms`
(audio_monitor.rs line 329). -/
def sum_of_squares (samples : List ℚ) : ℚ :=
  (samples.map fun sample => sample * sample).sum

/-- Model of the `mean_of_squares` step in `calculate_rms`
(audio_monitor.rs line 332). -/
def mean_of_squares (samples : List ℚ) : ℚ :=
  sum_of_squares samples / samples.length

/-- Model of `calculate_rms` (audio_monitor.rs lines 323-336): `0.0` for an
empty buffer, otherwise the square root of the mean of squares.  The `f32`
arithmetic of the source is modelled exactly: samples as rationals and the
square root as the real square root. -/
noncomputable def calculate_rms (samples : List ℚ) : ℝ :=
  if samples.isEmpty then 0
  else Real.sqrt ((mean_of_squares samples : ℚ) : ℝ)

/-- Model of the `AudioMonitor` struct state (audio_monitor.rs lines 78-85):
the immutable context and channel are passed separately where needed; the
capture task handle is a numeric task id.  `retry_count` is a `u8` in the
source; it is modelled as a `Nat`, with the wrap-around of the `u8`
increment made explicit (`% 256`) where the source increments it. -/
structure AudioMonitor where
  shutdown_signal : Bool
  retry_count : Nat
  handle : Option Nat
deriving DecidableEq

/-- Result of one `AudioMonitor::start` call: whether it returned `Ok`, the
monitor state afterwards, how many times `start_inner` was attempted and how
many backoff sleeps were performed. -/
structure StartResult where
  ok : Bool
  monitor : AudioMonitor
  attempts : Nat
  sleeps : Nat
deriving DecidableEq

/-- The retry loop of `AudioMonitor::start` (audio_monitor.rs lines 112-140).
`outcomes k` is the result of the `k`-th `start_inner` call (`some h` a
spawned capture-task handle, `none` an error).  On error the unguarded
`self.retry_count += 1` runs first — `retry_count` is a `u8`, so the
increment wraps around at 255, made explicit here as `% 256` — and only
then is the budget checked: if the new count exceeds
`AUDIO_MONITOR_BOOTSTRAP_RETRY` the fatal exhaustion error is returned
immediately (no sleep), otherwise the loop sleeps the fixed backoff and
retries. -/
def AudioMonitor.start_loop (outcomes : Nat → Option Nat) (m : AudioMonitor)
    (k attempts sleeps : Nat) : StartResult :=
  match outcomes k with
  | some handle =>
    { ok := true, monitor := { m with handle := some handle },
      attempts := attempts + 1, sleeps := sleeps }
  | none =>
    let m' := { m with retry_count := (m.retry_count + 1) % 256 }
    if AUDIO_MONITOR_BOOTSTRAP_RETRY < m'.retry_count then
      { ok := false, monitor := m', attempts := attempts + 1, sleeps := sleeps }
    else
      AudioMonitor.start_loop outcomes m' (k + 1) (attempts + 1) (sleeps + 1)
termination_by
  if (m.retry_count + 1) % 256 ≤ AUDIO_MONITOR_BOOTSTRAP_RETRY then
    AUDIO_MONITOR_BOOTSTRAP_RETRY + 2 - (m.retry_count + 1) % 256
  else 0
decreasing_by
  simp only [AUDIO_MONITOR_BOOTSTRAP_RETRY] at *
  split_ifs <;> omega

/-- Model of `AudioMonitor::start` (audio_monitor.rs lines 109-141): clears
the shutdown flag, then runs the retry loop.  Note that `retry_count` is
never reset. -/
def AudioMonitor.start (outcomes : Nat → Option Nat) (m : AudioMonitor) :
    StartResult :=
  AudioMonitor.start_loop outcomes { m with shutdown_signal := false } 0 0 0

/-- Model of `AudioMonitor::stop` (audio_monitor.rs lines 288-296): sets the
shutdown flag and takes + awaits the capture task handle.  `retry_count` is
untouched. -/
def AudioMonitor.stop (m : AudioMonitor) : AudioMonitor :=
  { m with shutdown_signal := true, handle := none }

/-! ## LiveStream state (src/live_stream.rs) -/

def LIVE_STREAM_BOOTSTRAP_RETRY : Nat := 10

/-- Model of the `LiveStreamState` struct (live_stream.rs lines 23-33).
Task handles (`handle_pipe`, `handle_watch`) are numeric task ids. -/
structure LiveStreamState where
  rpicam_process : Option ProcessControl
  ffmpeg_process : Option ProcessControl
  handle_pipe : Option Nat
  handle_watch : Option Nat
  running : Bool
  retry_count : Nat
deriving DecidableEq

/-- The observable actions `LiveStreamState::stop` and the watchdog perform,
in the order the source performs them. -/
inductive Action
  | abort_pipe
  | abort_watch
  | stop_ffmpeg
  | stop_rpicam
  | bootstrap_attempt
deriving DecidableEq

/-- The actions performed by `LiveStreamState::stop` (live_stream.rs lines
86-114), in source order: abort the relay task, abort the watch task, stop
the ffmpeg process, then stop the rpicam process — each only when the
corresponding slot is occupied. -/
def LiveStreamState.stop_actions (s : LiveStreamState) : List Action :=
  (match s.handle_pipe with
    | some _ => [Action.abort_pipe]
    | none => []) ++
  (match s.handle_watch with
    | some _ => [Action.abort_watch]
    | none => []) ++
  (match s.ffmpeg_process with
    | some _ => [Action.stop_ffmpeg]
    | none => []) ++
  (match s.rpicam_process with
    | some _ => [Action.stop_rpicam]
    | none => [])

/-- Model of `LiveStreamState::stop` (live_stream.rs lines 86-114): clears
`running`, takes and aborts both task handles, takes and stops both process
handles.  `retry_count` is not touched. -/
def LiveStreamState.stop (s : LiveStreamState) : LiveStreamState × List Action :=
  ({ s with running := false, handle_pipe := none, handle_watch := none,
            ffmpeg_process := none, rpicam_process := none },
   s.stop_actions)

/-- Model of `LiveStreamState::reset` (live_stream.rs lines 81-84): a stop
followed by zeroing `retry_count`. -/
def LiveStreamState.reset (s : LiveStreamState) : LiveStreamState × List Action :=
  ({ (s.stop).1 with retry_count := 0 }, (s.stop).2)

/-- Model of `LiveStreamState::retry_increment` (live_stream.rs lines
116-120). -/
def LiveStreamState.retry_increment (s : LiveStreamState) : LiveStreamState :=
  { s with retry_count := s.retry_count + 1 }

/-- The data a successful bootstrap produces: the two process handles and
the relay task id. -/
structure BootOk where
  rpicam_process : ProcessControl
  ffmpeg_process : ProcessControl
  handle_pipe : Nat
deriving DecidableEq

/-- Model of `LiveStreamState::start` (live_stream.rs lines 36-79).
`outcome = none` covers every failure (spawn error, missing stdout/stdin,
missing pid): the function returns `Err` before assigning any state field,
so the state is unchanged.  On success the process handles and the relay
task are stored and `running` is set.  `retry_count` is not touched in
either case. -/
def LiveStreamState.start (outcome : Option BootOk) (s : LiveStreamState) :
    LiveStreamState × Bool :=
  match outcome with
  | none => (s, false)
  | some b =>
    ({ s with rpicam_process := some b.rpicam_process,
              ffmpeg_process := some b.ffmpeg_process,
              handle_pipe := some b.handle_pipe,
              running := true }, true)

/-- Observable events of one watchdog loop run (live_stream.rs lines
154-252).  `attempt n` is a bootstrap attempt, tagged with the value of
`retry_count` after `retry_increment` (the attempt number); `sleep` is the
fixed 3 s backoff at the end of a loop iteration; `too_many n` is the
"Too many retries" error report followed by `break`. -/
inductive WDEvent
  | attempt (n : Nat)
  | watch_spawned
  | watch_rx_missing
  | sleep
  | too_many (n : Nat)
deriving DecidableEq

/-- Number of bootstrap attempts in a watchdog event trace. -/
def attemptCount (evs : List WDEvent) : Nat :=
  (evs.filter fun e =>
    match e with
    | WDEvent.attempt _ => true
    | _ => false).length

/-- Model of `state_lock.rpicam_process.as_mut().and_then(|p| p.exit_rx())`
(live_stream.rs lines 177-178 and 192-193). -/
def take_exit_rx : Option ProcessControl → Option Nat × Option ProcessControl
  | none => (none, none)
  | some p => ((p.exit_rx_take).1, some (p.exit_rx_take).2)

/-- One iteration of the watchdog loop body spawned by `LiveStream::start`
(live_stream.rs lines 155-251).  `results k` is the outcome of the `k`-th
call to `LiveStreamState::start`.

Read `running` and `retry_count`; if running, just sleep.  Otherwise, if
`retry_count < LIVE_STREAM_BOOTSTRAP_RETRY`, increment the retry count and
attempt a bootstrap; on bootstrap failure log the error and sleep; on
success claim the two exit receivers (on a missing receiver, log and
`continue` — skipping the sleep), store the watch task handle and sleep.
If the budget is exhausted, report "Too many retries" and `break`.

Returns `Sum.inl (state, next attempt index, events)` when the loop
continues, `Sum.inr events` when it breaks. -/
def watchdog_iter (results : Nat → Option BootOk) (k : Nat)
    (s : LiveStreamState) :
    (LiveStreamState × Nat × List WDEvent) ⊕ List WDEvent :=
  if s.running then
    Sum.inl (s, k, [WDEvent.sleep])
  else if s.retry_count < LIVE_STREAM_BOOTSTRAP_RETRY then
    let s₁ := s.retry_increment
    match LiveStreamState.start (results k) s₁ with
    | (s₂, false) =>
      Sum.inl (s₂, k + 1, [WDEvent.attempt s₁.retry_count, WDEvent.sleep])
    | (s₂, true) =>
      let rx_r := take_exit_rx s₂.rpicam_process
      let s₃ := { s₂ with rpicam_process := rx_r.2 }
      match rx_r.1 with
      | none =>
        Sum.inl (s₃, k + 1,
          [WDEvent.attempt s₁.retry_count, WDEvent.watch_rx_missing])
      | some _ =>
        let rx_f := take_exit_rx s₃.ffmpeg_process
        let s₄ := { s₃ with ffmpeg_process := rx_f.2 }
        match rx_f.1 with
        | none =>
          Sum.inl (s₄, k + 1,
            [WDEvent.attempt s₁.retry_count, WDEvent.watch_rx_missing])
        | some _ =>
          Sum.inl ({ s₄ with handle_watch := some k }, k + 1,
            [WDEvent.attempt s₁.retry_count, WDEvent.watch_spawned,
             WDEvent.sleep])
  else
    Sum.inr [WDEvent.too_many s.retry_count]

/-- The watchdog loop (live_stream.rs lines 154-252): iterate
`watchdog_iter` until it breaks.  `fuel` bounds how many iterations the
model unfolds (the real loop only ever leaves via `break`); the returned
boolean records whether the loop broke within the given fuel. -/
def watchdog_loop (results : Nat → Option BootOk) :
    Nat → Nat → LiveStreamState → LiveStreamState × List WDEvent × Bool
  | 0, _, s => (s, [], false)
  | fuel + 1, k, s =>
    match watchdog_iter results k s with
    | Sum.inl (s', k', evs) =>
      let r := watchdog_loop results fuel k' s'
      (r.1, evs ++ r.2.1, r.2.2)
    | Sum.inr evs => (s, evs, true)

/-- The watchdog event trace of a run in which every bootstrap attempt
fails, starting from retry count `r` with `n = 10 - r` attempts left:
attempts `r+1, …, 10`, each followed by exactly one backoff sleep, then the
"Too many retries" report. -/
def failTrace : Nat → Nat → List WDEvent
  | 0, r => [WDEvent.too_many r]
  | n + 1, r => WDEvent.attempt (r + 1) :: WDEvent.sleep :: failTrace n (r + 1)

/-! ## LiveStream wrapper and tokio tasks (src/live_stream.rs) -/

/-- A minimal model of the tokio task system: `next_id` the id the next
spawn will get, `alive` the ids of tasks that have been spawned and not
aborted.  Dropping a `JoinHandle` does not abort the task, so only an
explicit abort removes a task from `alive`. -/
structure TaskSys where
  next_id : Nat
  alive : List Nat
deriving DecidableEq

/-- `tokio::spawn`: a fresh task id, alive until aborted. -/
def TaskSys.spawn (ts : TaskSys) : Nat × TaskSys :=
  (ts.next_id, { next_id := ts.next_id + 1, alive := ts.alive ++ [ts.next_id] })

/-- `JoinHandle::abort`. -/
def TaskSys.abort (ts : TaskSys) (t : Nat) : TaskSys :=
  { ts with alive := ts.alive.filter fun x => x ≠ t }

/-- Model of the `LiveStream` wrapper (live_stream.rs lines 127-134),
reduced to the watchdog slot the claims are about. -/
structure LiveStream where
  watchdog : Option Nat
deriving DecidableEq

/-- Model of `LiveStream::start` (live_stream.rs lines 148-257): spawns a
watchdog task unconditionally, then overwrites the watchdog slot with the
new handle.  The previous `JoinHandle`, if any, is merely dropped by the
assignment `*watchdog_lock = Some(watchdog)`; dropping a tokio `JoinHandle`
detaches the task, so the old task stays alive and is not aborted. -/
def LiveStream.start (_ls : LiveStream) (ts : TaskSys) : LiveStream × TaskSys :=
  let sp := ts.spawn
  ({ watchdog := some sp.1 }, sp.2)

/-- Model of `LiveStream::stop` (live_stream.rs lines 260-269): takes and
aborts the watchdog task if present, then performs the full
`LiveStreamState::reset`. -/
def LiveStream.stop (ls : LiveStream) (ts : TaskSys) (st : LiveStreamState) :
    (LiveStream × TaskSys) × LiveStreamState × List Action :=
  match ls.watchdog with
  | some t => (({ watchdog := none }, ts.abort t), st.reset)
  | none => (({ watchdog := none }, ts), st.reset)

/-! ## Tapped relay (src/live_stream.rs, `tapped_io_pipe`, lines 289-325)

The relay spawns a reader task (reads chunks of at most 8192 bytes from the
capturer's stdout and sends each chunk into a `broadcast::channel(10)`) and
a pipe-writer task (receives chunks from its broadcast cursor and writes
them verbatim to the transcoder's stdin; it breaks out of its loop on any
`Err` from `recv`, which includes `RecvError::Lagged`).

The model below makes the interleaving explicit: `chunks` is the sequence
of (non-empty) reads the reader performs before hitting EOF, and a schedule
is a list of booleans, `true` letting the reader run one loop iteration and
`false` the writer.  `cap` is the capacity of the broadcast channel: the
source requests 10 and tokio rounds the capacity up to the next power of
two, 16.  A receiver whose cursor has fallen more than `cap` messages
behind the send count observes `Lagged` on its next `recv`. -/

/-- State of the tapped relay's primary path. -/
structure RelayState where
  sent : Nat
  next : Nat
  out : List Nat
  reader_done : Bool
  writer_done : Bool
  lagged : Bool
deriving DecidableEq

/-- Initial relay state: nothing sent, cursor at zero, nothing written. -/
def relay_init : RelayState :=
  { sent := 0, next := 0, out := [], reader_done := false,
    writer_done := false, lagged := false }

/-- One scheduled step of `tapped_io_pipe`'s primary path.  A reader step
(`reader_turn = true`) models one iteration of the reader loop (lines
303-314): read the next chunk and send it, or observe EOF and finish.  A
writer step models one iteration of the pipe loop (lines 320-324): `recv`
returns `Lagged` when the cursor is more than `cap` behind (the loop then
breaks, setting `lagged`), otherwise delivers the next chunk which is
written verbatim to the transcoder's stdin; when the channel is drained and
closed, `recv` returns `Closed` and the loop ends. -/
def relay_step (cap : Nat) (chunks : List (List Nat)) (s : RelayState)
    (reader_turn : Bool) : RelayState :=
  if reader_turn then
    if s.reader_done then s
    else if s.sent < chunks.length then { s with sent := s.sent + 1 }
    else { s with reader_done := true }
  else
    if s.writer_done then s
    else if cap < s.sent - s.next then
      { s with writer_done := true, lagged := true }
    else if s.next < s.sent then
      { s with next := s.next + 1, out := s.out ++ chunks.getD s.next [] }
    else if s.reader_done then { s with writer_done := true }
    else s

/-- Run the relay under a schedule. -/
def relay_run (cap : Nat) (chunks : List (List Nat)) (sched : List Bool) :
    RelayState :=
  sched.foldl (relay_step cap chunks) relay_init

/-- The two-chunk capturer of the spec's end-to-end scenario: bytes
`0x00..0x63` emitted as a 50-byte chunk followed by another 50-byte
chunk. -/
def demo_chunks : List (List Nat) :=
  [List.range 50, (List.range 50).map fun b => 50 + b]

/-- A schedule performing one full relay cycle of the demo: the reader
reads both chunks and the EOF, then the writer drains and observes the
closed channel. -/
def demo_sched : List Bool :=
  [true, true, true, false, false, false]

/-! ## Shutdown-before-restart ordering (src/live_stream.rs)

The scenario of claim C5: the pipeline is live, the transcoder (ffmpeg)
process has exited unexpectedly while the capturer (rpicam) is still alive,
so the `tokio::select!` in the watch task (lines 209-237) has fired and the
watch task is about to run `state.write().await.stop().await`.  Under the
`RwLock`, the watch task's stop and each watchdog action are atomic
sections; `WStep` is the set of interleavings the two tasks can produce. -/

/-- Global state of the watch-task / watchdog interleaving. -/
structure WatchScenario where
  st : LiveStreamState
  watch_pending : Bool
  observed_down : Bool
deriving DecidableEq

/-- Interleaved executions of the watch task and the watchdog, as a
trace-extending transition relation.

* `watch_fires`: the pending watch task acquires the write lock and runs
  `LiveStreamState::stop` (live_stream.rs line 236), emitting the stop
  actions — including `stop_rpicam` whenever a capturer handle is present.
* `wd_check_live` / `wd_check_down`: the watchdog's read-locked liveness
  check (lines 156-159); observing `running = false` arms the bootstrap.
* `wd_boot`: an armed watchdog under budget takes the write lock,
  increments the retry count and attempts `LiveStreamState::start` with an
  arbitrary outcome (lines 162-168), emitting `bootstrap_attempt`. -/
inductive WStep : WatchScenario → List Action → WatchScenario → Prop
  | refl (g : WatchScenario) : WStep g [] g
  | watch_fires (g : WatchScenario) (evs : List Action) (g₁ : WatchScenario)
      (h : WStep g evs g₁) (hw : g₁.watch_pending = true) :
      WStep g (evs ++ (g₁.st.stop).2)
        { st := (g₁.st.stop).1, watch_pending := false,
          observed_down := g₁.observed_down }
  | wd_check_live (g : WatchScenario) (evs : List Action) (g₁ : WatchScenario)
      (h : WStep g evs g₁) (hrun : g₁.st.running = true) :
      WStep g evs g₁
  | wd_check_down (g : WatchScenario) (evs : List Action) (g₁ : WatchScenario)
      (h : WStep g evs g₁) (hrun : g₁.st.running = false) :
      WStep g evs { g₁ with observed_down := true }
  | wd_boot (g : WatchScenario) (evs : List Action) (g₁ : WatchScenario)
      (outcome : Option BootOk)
      (h : WStep g evs g₁) (hobs : g₁.observed_down = true)
      (hbudget : g₁.st.retry_count < LIVE_STREAM_BOOTSTRAP_RETRY) :
      WStep g (evs ++ [Action.bootstrap_attempt])
        { st := (LiveStreamState.start outcome g₁.st.retry_increment).1,
          watch_pending := g₁.watch_pending, observed_down := false }

/-! ## Theorems -/

/-- Claim C6: for every `ProcessControl` produced by `new`, the first call
to `exit_rx()` returns `Some(receiver)` and every subsequent call returns
`None`; the take is a total function (it never panics). -/
theorem c6_exit_rx_claimed_once (id : String) (pid? : Option Nat) (hs : Bool)
    (pc : ProcessControl) (h : ProcessControl.new id pid? hs = Except.ok pc) :
    ((pc.exit_rx_take).1).isSome = true ∧
    (((pc.exit_rx_take).2).exit_rx_take).1 = none ∧
    ∀ pc' : ProcessControl, (((pc'.exit_rx_take).2).exit_rx_take).1 = none := by
  refine ⟨?_, rfl, fun pc' => rfl⟩
  cases pid? with
  | none => simp [ProcessControl.new] at h
  | some pid =>
    cases hs with
    | false => simp [ProcessControl.new] at h
    | true =>
      simp only [ProcessControl.new, if_true, Except.ok.injEq] at h
      subst h
      rfl

/-- Witness for C6 at a concrete freshly-constructed handle. -/
theorem c6_witness :
    ((ProcessControl.exit_rx_take ⟨"ffmpeg", 7, some 0, false⟩).1).isSome = true ∧
    (((ProcessControl.exit_rx_take ⟨"ffmpeg", 7, some 0, false⟩).2).exit_rx_take).1
      = none ∧
    ∀ pc' : ProcessControl, (((pc'.exit_rx_take).2).exit_rx_take).1 = none :=
  c6_exit_rx_claimed_once "ffmpeg" (some 7) true ⟨"ffmpeg", 7, some 0, false⟩ rfl

/-- Claim C4 is false as stated: stopping a `ProcessControl` whose target
process is already gone makes the `kill` syscall fail with ESRCH, and
`stop()` reports that as an error (process_control.rs lines 155-165 map
every `kill` failure to `Err`).  Concrete input: a handle with pid 42 and
no live process. -/
theorem c4_counterexample :
    (ProcessControl.stop (fun _ => false) ⟨"ffmpeg", 42, some 0, false⟩).2 ≠
      Except.ok () ∧
    (ProcessControl.stop (fun _ => false) ⟨"ffmpeg", 42, some 0, false⟩).1.stopped
      = true := by
  constructor
  · intro h
    simp [ProcessControl.stop, ProcessControl.send_signal_inner, kill_syscall] at h
  · rfl

/-- Claim C4 (amended): `stop()` marks the `stopped` flag and sends SIGINT;
it returns `Ok` exactly when signal delivery succeeds, and any delivery
failure — including the target process being gone (ESRCH) — is returned as
an error; repeated calls are idempotent on the handle state and repeat the
same delivery attempt. -/
theorem c4_stop_marks_and_signals (alive : Nat → Bool) (pc : ProcessControl) :
    (ProcessControl.stop alive pc).1.stopped = true ∧
    ((ProcessControl.stop alive pc).2 = Except.ok () ↔ alive pc.pid = true) ∧
    (ProcessControl.stop alive (ProcessControl.stop alive pc).1).1 =
      (ProcessControl.stop alive pc).1 ∧
    (ProcessControl.stop alive (ProcessControl.stop alive pc).1).2 =
      (ProcessControl.stop alive pc).2 := by
  refine ⟨rfl, ?_, rfl, rfl⟩
  by_cases h : alive pc.pid <;>
    simp [ProcessControl.stop, ProcessControl.send_signal_inner, kill_syscall, h]

/-- Claim C7: with a bus attached, an `AudioMonitor` (audio-level) event
carrying the window's RMS is published iff a threshold is configured and
the RMS is strictly greater than it; with no threshold, or RMS at or below
the threshold, nothing is published. -/
theorem c7_audio_level_iff (t? : Option ℚ) (rms : ℚ) :
    (audio_window_events (some ()) t? rms = [Event.AudioMonitor rms] ↔
      ∃ t, t? = some t ∧ t < rms) ∧
    (audio_window_events (some ()) t? rms = [] ↔
      ∀ t, t? = some t → rms ≤ t) := by
  cases t? with
  | none => simp [audio_window_events, rms_trigger]
  | some t =>
    by_cases h : t < rms
    · simp [audio_window_events, rms_trigger, h, not_lt]
    · simp [audio_window_events, rms_trigger, h, not_lt]
      exact le_of_not_lt h

/-- Claim C8: `calculate_rms` is a pure deterministic function of its
buffer; the RMS of the empty buffer is `0`; and the RMS of a non-empty
constant buffer is the absolute value of the constant. -/
theorem c8_rms_pure (samples : List ℚ) (c : ℚ) (n : Nat) (h : n ≠ 0) :
    calculate_rms samples = calculate_rms samples ∧
    calculate_rms [] = 0 ∧
    calculate_rms (List.replicate n c) = |(c : ℝ)| := by
  refine ⟨rfl, by simp [calculate_rms], ?_⟩
  obtain ⟨m, rfl⟩ := Nat.exists_eq_succ_of_ne_zero h
  have hne : ((m + 1 : Nat) : ℚ) ≠ 0 := by positivity
  have hmean : mean_of_squares (List.replicate (m + 1) c) = c * c := by
    simp only [mean_of_squares, sum_of_squares, List.map_replicate,
      List.sum_replicate, List.length_replicate, nsmul_eq_mul]
    exact mul_div_cancel_left₀ _ hne
  have hempty : (List.replicate (m + 1) c).isEmpty = false := by
    simp [List.replicate_succ]
  simp only [calculate_rms, hempty, Bool.false_eq_true, if_false, hmean]
  push_cast
  exact Real.sqrt_mul_self_eq_abs _

/-- Claim C9: `retry_count` is zeroed only by the explicit full reset that a
user-initiated `LiveStream::stop` performs; `LiveStreamState::stop` (the
automatic-restart teardown run by the watch task) and
`LiveStreamState::start` (the watchdog's re-bootstrap) leave `retry_count`
unchanged, and reset tears down exactly the same fields as stop, differing
only in the retry count. -/
theorem c9_retry_reset_only_on_full_reset (s : LiveStreamState)
    (outcome : Option BootOk) (ls : LiveStream) (ts : TaskSys) :
    (s.stop).1.retry_count = s.retry_count ∧
    (LiveStreamState.start outcome s).1.retry_count = s.retry_count ∧
    (s.reset).1.retry_count = 0 ∧
    (s.reset).1 = { (s.stop).1 with retry_count := 0 } ∧
    (s.reset).2 = (s.stop).2 ∧
    (LiveStream.stop ls ts s).2.1 = (s.reset).1 := by
  refine ⟨rfl, ?_, rfl, rfl, rfl, ?_⟩
  · cases outcome <;> rfl
  · rcases ls with ⟨w⟩
    cases w <;> rfl

/-- Claim C3 is false as stated: from a fresh pipeline, `start()` spawns
watchdog task 0; calling `start()` again while task 0 is still alive spawns
a second watchdog task 1, overwrites the slot with it, and leaves task 0
alive (the dropped `JoinHandle` detaches the task) — two live watchdogs. -/
theorem c3_counterexample :
    ((LiveStream.start ⟨none⟩ ⟨0, []⟩).2).alive = [0] ∧
    (((LiveStream.start ⟨none⟩ ⟨0, []⟩).1).start
        ((LiveStream.start ⟨none⟩ ⟨0, []⟩).2)).2.alive = [0, 1] ∧
    (((LiveStream.start ⟨none⟩ ⟨0, []⟩).1).start
        ((LiveStream.start ⟨none⟩ ⟨0, []⟩).2)).1.watchdog = some 1 :=
  ⟨rfl, rfl, rfl⟩

/-- Claim C3 (amended): `LiveStream::start` is not idempotent — every call
unconditionally spawns a fresh watchdog task and overwrites the stored
handle with it; the previously stored watchdog task, if any, is neither
aborted nor joined (it stays alive, detached). -/
theorem c3_start_always_spawns (ls : LiveStream) (ts : TaskSys) :
    (ls.start ts).1.watchdog = some ts.next_id ∧
    (ls.start ts).2.alive = ts.alive ++ [ts.next_id] ∧
    (ls.start ts).2.next_id = ts.next_id + 1 :=
  ⟨rfl, rfl, rfl⟩

/-- Witness for C8 at a concrete constant buffer. -/
theorem c8_witness :
    calculate_rms [1/2, 1] = calculate_rms [1/2, 1] ∧
    calculate_rms [] = 0 ∧
    calculate_rms (List.replicate 3 (1/2 : ℚ)) = |((1/2 : ℚ) : ℝ)| :=
  c8_rms_pure [1/2, 1] (1/2) 3 (by decide)

/-- The `AudioMonitor::start` retry loop never decreases `retry_count` as
long as the `u8` increment does not wrap, i.e. the count is below 255 on
entry (the loop itself can then only pass through values ≤ 11). -/
theorem start_loop_retry_mono (outcomes : Nat → Option Nat) (m : AudioMonitor)
    (k attempts sleeps : Nat) :
    m.retry_count < 255 →
    m.retry_count ≤
      (AudioMonitor.start_loop outcomes m k attempts sleeps).monitor.retry_count := by
  induction m, k, attempts, sleeps using AudioMonitor.start_loop.induct outcomes with
  | case1 m k attempts sleeps h heq =>
    intro _
    rw [AudioMonitor.start_loop, heq]
  | case2 m k attempts sleeps heq m' hgt =>
    intro hlt
    rw [AudioMonitor.start_loop, heq]
    simp only [if_pos hgt]
    have : (m.retry_count + 1) % 256 = m.retry_count + 1 :=
      Nat.mod_eq_of_lt (by omega)
    simp only [this]
    exact Nat.le_succ _
  | case3 m k attempts sleeps heq m' hnot ih =>
    intro hlt
    rw [AudioMonitor.start_loop, heq]
    simp only [if_neg hnot]
    unfold m' at hnot ih
    simp only [AUDIO_MONITOR_BOOTSTRAP_RETRY] at hnot
    have hsmall : (m.retry_count + 1) % 256 < 255 := by omega
    have hrec : (m.retry_count + 1) % 256 ≤
        (AudioMonitor.start_loop outcomes
          { shutdown_signal := m.shutdown_signal,
            retry_count := (m.retry_count + 1) % 256,
            handle := m.handle } (k + 1) (attempts + 1)
          (sleeps + 1)).monitor.retry_count :=
      ih hsmall
    have hid : (m.retry_count + 1) % 256 = m.retry_count + 1 :=
      Nat.mod_eq_of_lt (by omega)
    omega

/-- Claim C10 is false as stated: `retry_count` is a `u8` and the unguarded
`self.retry_count += 1` (audio_monitor.rs line 120) runs before the budget
check, so at `retry_count = 255` — reachable, because each failing
post-exhaustion `start()` adds exactly one — the increment wraps to 0 and
the exhaustion check fails.  A `start()` whose attempts all fail then runs
a fresh retry loop (12 attempts, 11 backoff sleeps) ending at
`retry_count = 11` instead of returning the fatal error immediately after
one attempt. -/
theorem c10_counterexample :
    (AudioMonitor.start (fun _ => none) ⟨false, 255, none⟩).ok = false ∧
    (AudioMonitor.start (fun _ => none) ⟨false, 255, none⟩).attempts = 12 ∧
    (AudioMonitor.start (fun _ => none) ⟨false, 255, none⟩).sleeps = 11 ∧
    (AudioMonitor.start (fun _ => none) ⟨false, 255, none⟩).monitor.retry_count
      = 11 := by
  have h : AudioMonitor.start (fun _ => none) ⟨false, 255, none⟩ =
      { ok := false, monitor := ⟨false, 11, none⟩, attempts := 12,
        sleeps := 11 } := by
    simp [AudioMonitor.start, AudioMonitor.start_loop,
      AUDIO_MONITOR_BOOTSTRAP_RETRY]
  exact ⟨by rw [h], by rw [h], by rw [h], by rw [h]⟩

/-- Claim C10 (amended): `AudioMonitor::stop` never touches `retry_count`,
and `AudioMonitor::start` only increments it — modulo the `u8` wrap, so
monotone accumulation holds exactly when the count is below 255 on entry;
once `retry_count` has exceeded the budget but the `u8` has not yet reached
255, a `start()` call whose first attempt fails returns the fatal
exhaustion error after exactly that one attempt, with no backoff sleep and
no fresh retry loop. -/
theorem c10_retry_accumulates (m : AudioMonitor) (outcomes : Nat → Option Nat)
    (hexhausted : AUDIO_MONITOR_BOOTSTRAP_RETRY < m.retry_count)
    (hnowrap : m.retry_count < 255)
    (hfail : outcomes 0 = none) :
    (AudioMonitor.stop m).retry_count = m.retry_count ∧
    (∀ (m' : AudioMonitor) (oc : Nat → Option Nat), m'.retry_count < 255 →
        m'.retry_count ≤ (AudioMonitor.start oc m').monitor.retry_count) ∧
    (AudioMonitor.start outcomes m).ok = false ∧
    (AudioMonitor.start outcomes m).attempts = 1 ∧
    (AudioMonitor.start outcomes m).sleeps = 0 := by
  have hid : (m.retry_count + 1) % 256 = m.retry_count + 1 :=
    Nat.mod_eq_of_lt (by omega)
  have hgt : AUDIO_MONITOR_BOOTSTRAP_RETRY < (m.retry_count + 1) % 256 := by
    rw [hid]
    exact Nat.lt_succ_of_lt hexhausted
  have hrun : AudioMonitor.start outcomes m =
      { ok := false,
        monitor := { m with shutdown_signal := false,
                            retry_count := (m.retry_count + 1) % 256 },
        attempts := 1, sleeps := 0 } := by
    rw [AudioMonitor.start, AudioMonitor.start_loop, hfail]
    simp [hgt]
  refine ⟨rfl, ?_, ?_, ?_, ?_⟩
  · intro m' oc hlt
    rw [AudioMonitor.start]
    exact start_loop_retry_mono oc { m' with shutdown_signal := false } 0 0 0 hlt
  · rw [hrun]
  · rw [hrun]
  · rw [hrun]

/-- Witness for C10 (amended) at a monitor whose retry budget is already
exhausted (but whose `u8` count has not reached 255) and a first attempt
that fails. -/
theorem c10_amended_witness :
    (AudioMonitor.stop ⟨false, 11, none⟩).retry_count = 11 ∧
    (AudioMonitor.start (fun _ => none) ⟨false, 11, none⟩).ok = false ∧
    (AudioMonitor.start (fun _ => none) ⟨false, 11, none⟩).attempts = 1 ∧
    (AudioMonitor.start (fun _ => none) ⟨false, 11, none⟩).sleeps = 0 :=
  ⟨(c10_retry_accumulates ⟨false, 11, none⟩ (fun _ => none) (by decide)
      (by decide) rfl).1,
   (c10_retry_accumulates ⟨false, 11, none⟩ (fun _ => none) (by decide)
      (by decide) rfl).2.2⟩

@[simp]
theorem attemptCount_nil : attemptCount [] = 0 := rfl

@[simp]
theorem attemptCount_attempt (n : Nat) (l : List WDEvent) :
    attemptCount (WDEvent.attempt n :: l) = attemptCount l + 1 := by
  simp [attemptCount, List.filter]

@[simp]
theorem attemptCount_sleep (l : List WDEvent) :
    attemptCount (WDEvent.sleep :: l) = attemptCount l := by
  simp [attemptCount, List.filter]

@[simp]
theorem attemptCount_watch_spawned (l : List WDEvent) :
    attemptCount (WDEvent.watch_spawned :: l) = attemptCount l := by
  simp [attemptCount, List.filter]

@[simp]
theorem attemptCount_watch_rx_missing (l : List WDEvent) :
    attemptCount (WDEvent.watch_rx_missing :: l) = attemptCount l := by
  simp [attemptCount, List.filter]

@[simp]
theorem attemptCount_too_many (n : Nat) (l : List WDEvent) :
    attemptCount (WDEvent.too_many n :: l) = attemptCount l := by
  simp [attemptCount, List.filter]

@[simp]
theorem attemptCount_append (a b : List WDEvent) :
    attemptCount (a ++ b) = attemptCount a + attemptCount b := by
  simp [attemptCount, List.filter_append]

/-- `LiveStreamState::start` never changes the retry count. -/
theorem start_fst_retry (oc : Option BootOk) (s : LiveStreamState) :
    (LiveStreamState.start oc s).1.retry_count = s.retry_count := by
  cases oc <;> rfl

/-- Each continuing watchdog iteration performs at most one bootstrap
attempt, increments the retry count by exactly the number of attempts it
performed, and only attempts while under the retry budget; a breaking
iteration performs no attempt. -/
theorem watchdog_iter_retry (results : Nat → Option BootOk) (k : Nat)
    (s : LiveStreamState) :
    (∀ s' k' evs, watchdog_iter results k s = Sum.inl (s', k', evs) →
      s'.retry_count = s.retry_count + attemptCount evs ∧
      (attemptCount evs = 0 ∨
        (s.retry_count < LIVE_STREAM_BOOTSTRAP_RETRY ∧ attemptCount evs = 1))) ∧
    (∀ evs, watchdog_iter results k s = Sum.inr evs → attemptCount evs = 0) := by
  constructor
  · intro s' k' evs h
    unfold watchdog_iter at h
    split at h
    · simp only [Sum.inl.injEq, Prod.mk.injEq] at h
      obtain ⟨rfl, rfl, rfl⟩ := h
      simp
    · split at h
      · rename_i hretry
        dsimp only at h
        split at h
        · rename_i s₂ heq
          simp only [Sum.inl.injEq, Prod.mk.injEq] at h
          obtain ⟨rfl, rfl, rfl⟩ := h
          have h₂ : s₂.retry_count = s.retry_count + 1 := by
            have h' := congrArg (fun p => (Prod.fst p).retry_count) heq
            simpa [start_fst_retry, LiveStreamState.retry_increment] using h'.symm
          simp [h₂, hretry]
        · rename_i s₂ heq
          have h₂ : s₂.retry_count = s.retry_count + 1 := by
            have h' := congrArg (fun p => (Prod.fst p).retry_count) heq
            simpa [start_fst_retry, LiveStreamState.retry_increment] using h'.symm
          split at h
          · simp only [Sum.inl.injEq, Prod.mk.injEq] at h
            obtain ⟨rfl, rfl, rfl⟩ := h
            simp [h₂, hretry]
          · split at h
            · simp only [Sum.inl.injEq, Prod.mk.injEq] at h
              obtain ⟨rfl, rfl, rfl⟩ := h
              simp [h₂, hretry]
            · simp only [Sum.inl.injEq, Prod.mk.injEq] at h
              obtain ⟨rfl, rfl, rfl⟩ := h
              simp [h₂, hretry]
      · simp at h
  · intro evs h
    unfold watchdog_iter at h
    split at h
    · simp at h
    · split at h
      · dsimp only at h
        split at h
        · simp at h
        · split at h <;> first | simp at h | (split at h <;> simp at h)
      · simp only [Sum.inr.injEq] at h
        subst h
        simp

/-- The watchdog loop never makes more than
`LIVE_STREAM_BOOTSTRAP_RETRY - retry_count` bootstrap attempts, whatever
the attempt outcomes and however much fuel the model unfolds. -/
theorem watchdog_attempts_le (results : Nat → Option BootOk) (fuel : Nat) :
    ∀ (k : Nat) (s : LiveStreamState),
      attemptCount ((watchdog_loop results fuel k s).2.1) ≤
        LIVE_STREAM_BOOTSTRAP_RETRY - s.retry_count := by
  induction fuel with
  | zero =>
    intro k s
    simp [watchdog_loop]
  | succ fuel ih =>
    intro k s
    rw [watchdog_loop]
    cases hit : watchdog_iter results k s with
    | inl t =>
      obtain ⟨s', k', evs⟩ := t
      obtain ⟨hretry', hcases⟩ :=
        (watchdog_iter_retry results k s).1 s' k' evs hit
      have hrec := ih k' s'
      simp only [attemptCount_append]
      rcases hcases with h0 | ⟨hlt, h1⟩ <;> omega
    | inr evs =>
      have h0 := (watchdog_iter_retry results k s).2 evs hit
      simp [h0]

/-- In a run in which every bootstrap attempt fails, the watchdog performs
exactly the attempts `retry_count+1, …, 10`, each followed by one backoff
sleep, then reports "Too many retries" and breaks, leaving the retry count
at the budget. -/
theorem watchdog_all_fail (results : Nat → Option BootOk)
    (hfail : ∀ j, results j = none) :
    ∀ (fuel k : Nat) (s : LiveStreamState), s.running = false →
      s.retry_count ≤ LIVE_STREAM_BOOTSTRAP_RETRY →
      LIVE_STREAM_BOOTSTRAP_RETRY + 1 - s.retry_count ≤ fuel →
      watchdog_loop results fuel k s =
        ({ s with retry_count := LIVE_STREAM_BOOTSTRAP_RETRY },
         failTrace (LIVE_STREAM_BOOTSTRAP_RETRY - s.retry_count) s.retry_count,
         true) := by
  intro fuel
  induction fuel with
  | zero =>
    intro k s hrun hle hfuel
    exfalso
    simp only [LIVE_STREAM_BOOTSTRAP_RETRY] at hle hfuel
    omega
  | succ fuel ih =>
    intro k s hrun hle hfuel
    rw [watchdog_loop]
    by_cases hretry : s.retry_count < LIVE_STREAM_BOOTSTRAP_RETRY
    · have hit : watchdog_iter results k s =
          Sum.inl (s.retry_increment, k + 1,
            [WDEvent.attempt s.retry_increment.retry_count, WDEvent.sleep]) := by
        unfold watchdog_iter
        rw [if_neg (by simp [hrun]), if_pos hretry, hfail k]
        rfl
      rw [hit]
      have hrec := ih (k + 1) s.retry_increment
        (by simp [LiveStreamState.retry_increment, hrun])
        (by simp [LiveStreamState.retry_increment]; omega)
        (by simp [LiveStreamState.retry_increment]
            simp only [LIVE_STREAM_BOOTSTRAP_RETRY] at hfuel ⊢
            omega)
      simp only [hrec]
      have hsub : LIVE_STREAM_BOOTSTRAP_RETRY - s.retry_count =
          (LIVE_STREAM_BOOTSTRAP_RETRY - s.retry_increment.retry_count) + 1 := by
        simp only [LiveStreamState.retry_increment,
          LIVE_STREAM_BOOTSTRAP_RETRY] at hretry ⊢
        omega
      rw [hsub, failTrace]
      simp [LiveStreamState.retry_increment]
    · have heq : s.retry_count = LIVE_STREAM_BOOTSTRAP_RETRY := by omega
      have hit : watchdog_iter results k s =
          Sum.inr [WDEvent.too_many s.retry_count] := by
        unfold watchdog_iter
        rw [if_neg (by simp [hrun]), if_neg hretry]
      rw [hit]
      rw [heq]
      obtain ⟨p1, p2, p3, p4, run, r⟩ := s
      simp only at heq
      simp [heq, failTrace, Nat.sub_self]

/-- Claim C2: if every bootstrap attempt fails, the watchdog loop attempts
the bootstrap exactly `LIVE_STREAM_BOOTSTRAP_RETRY` (10) times — attempts
1 through 10, each followed by exactly one fixed backoff sleep — then
reports "Too many retries" and breaks; and for any fuel and any starting
state it never exceeds the budget (in particular no 11th attempt). -/
theorem c2_retry_budget (results : Nat → Option BootOk) (fuel k : Nat)
    (s : LiveStreamState)
    (hfail : ∀ j, results j = none) (hrun : s.running = false)
    (hretry : s.retry_count = 0)
    (hfuel : LIVE_STREAM_BOOTSTRAP_RETRY + 1 ≤ fuel) :
    (watchdog_loop results fuel k s).2.1 =
      [WDEvent.attempt 1, WDEvent.sleep, WDEvent.attempt 2, WDEvent.sleep,
       WDEvent.attempt 3, WDEvent.sleep, WDEvent.attempt 4, WDEvent.sleep,
       WDEvent.attempt 5, WDEvent.sleep, WDEvent.attempt 6, WDEvent.sleep,
       WDEvent.attempt 7, WDEvent.sleep, WDEvent.attempt 8, WDEvent.sleep,
       WDEvent.attempt 9, WDEvent.sleep, WDEvent.attempt 10, WDEvent.sleep,
       WDEvent.too_many 10] ∧
    attemptCount ((watchdog_loop results fuel k s).2.1) =
      LIVE_STREAM_BOOTSTRAP_RETRY ∧
    (watchdog_loop results fuel k s).2.2 = true ∧
    (∀ (fuel' k' : Nat) (s' : LiveStreamState),
        attemptCount ((watchdog_loop results fuel' k' s').2.1) ≤
          LIVE_STREAM_BOOTSTRAP_RETRY - s'.retry_count) := by
  have hall := watchdog_all_fail results hfail fuel k s hrun
    (by simp [hretry]) (by omega)
  rw [hretry] at hall
  refine ⟨?_, ?_, ?_, fun fuel' k' s' => watchdog_attempts_le results fuel' k' s'⟩
  · rw [hall]
    dsimp only
    decide
  · rw [hall]
    dsimp only
    decide
  · rw [hall]

/-- Witness for C2: a concrete all-failing bootstrap run from a fresh
pipeline state. -/
theorem c2_witness :
    (watchdog_loop (fun _ => none) 11 0 ⟨none, none, none, none, false, 0⟩).2.1 =
      [WDEvent.attempt 1, WDEvent.sleep, WDEvent.attempt 2, WDEvent.sleep,
       WDEvent.attempt 3, WDEvent.sleep, WDEvent.attempt 4, WDEvent.sleep,
       WDEvent.attempt 5, WDEvent.sleep, WDEvent.attempt 6, WDEvent.sleep,
       WDEvent.attempt 7, WDEvent.sleep, WDEvent.attempt 8, WDEvent.sleep,
       WDEvent.attempt 9, WDEvent.sleep, WDEvent.attempt 10, WDEvent.sleep,
       WDEvent.too_many 10] ∧
    attemptCount
      ((watchdog_loop (fun _ => none) 11 0 ⟨none, none, none, none, false, 0⟩).2.1)
      = LIVE_STREAM_BOOTSTRAP_RETRY ∧
    (watchdog_loop (fun _ => none) 11 0 ⟨none, none, none, none, false, 0⟩).2.2
      = true :=
  ⟨(c2_retry_budget (fun _ => none) 11 0 ⟨none, none, none, none, false, 0⟩
      (fun _ => rfl) rfl rfl (by decide)).1,
   (c2_retry_budget (fun _ => none) 11 0 ⟨none, none, none, none, false, 0⟩
      (fun _ => rfl) rfl rfl (by decide)).2.1,
   (c2_retry_budget (fun _ => none) 11 0 ⟨none, none, none, none, false, 0⟩
      (fun _ => rfl) rfl rfl (by decide)).2.2.1⟩

/-- Invariant of the tapped relay's primary path: the writer's cursor never
passes the reader, the reader never reads past EOF, the bytes written so
far are exactly the concatenation of the first `next` chunks (exact order,
no interior gaps), reader completion means all chunks were sent, and a
writer that finished without lagging wrote everything. -/
def RelayInv (chunks : List (List Nat)) (s : RelayState) : Prop :=
  s.next ≤ s.sent ∧ s.sent ≤ chunks.length ∧
  s.out = (chunks.take s.next).flatten ∧
  (s.reader_done = true → s.sent = chunks.length) ∧
  (s.writer_done = true → s.lagged = false → s.out = chunks.flatten)

/-- `RelayInv` is preserved by every scheduled relay step. -/
theorem relay_step_inv (cap : Nat) (chunks : List (List Nat)) (s : RelayState)
    (b : Bool) (h : RelayInv chunks s) :
    RelayInv chunks (relay_step cap chunks s b) := by
  obtain ⟨sent, next, out, rd, wd, lg⟩ := s
  obtain ⟨h1, h2, h3, h4, h5⟩ := h
  dsimp only at h1 h2 h3 h4 h5
  cases b with
  | true =>
    cases rd with
    | true =>
      have hstep : relay_step cap chunks ⟨sent, next, out, true, wd, lg⟩ true =
          ⟨sent, next, out, true, wd, lg⟩ := by simp [relay_step]
      rw [hstep]
      exact ⟨h1, h2, h3, h4, h5⟩
    | false =>
      by_cases hlt : sent < chunks.length
      · have hstep : relay_step cap chunks ⟨sent, next, out, false, wd, lg⟩ true =
            ⟨sent + 1, next, out, false, wd, lg⟩ := by simp [relay_step, hlt]
        rw [hstep]
        exact ⟨le_trans h1 (Nat.le_succ _), hlt, h3, by simp, h5⟩
      · have hstep : relay_step cap chunks ⟨sent, next, out, false, wd, lg⟩ true =
            ⟨sent, next, out, true, wd, lg⟩ := by simp [relay_step, hlt]
        rw [hstep]
        exact ⟨h1, h2, h3, fun _ => by dsimp only; omega, h5⟩
  | false =>
    cases wd with
    | true =>
      have hstep : relay_step cap chunks ⟨sent, next, out, rd, true, lg⟩ false =
          ⟨sent, next, out, rd, true, lg⟩ := by simp [relay_step]
      rw [hstep]
      exact ⟨h1, h2, h3, h4, h5⟩
    | false =>
      by_cases hlag : cap < sent - next
      · have hstep : relay_step cap chunks ⟨sent, next, out, rd, false, lg⟩ false =
            ⟨sent, next, out, rd, true, true⟩ := by simp [relay_step, hlag]
        rw [hstep]
        exact ⟨h1, h2, h3, h4, fun _ hl => by simp at hl⟩
      · by_cases hnx : next < sent
        · have hlen : next < chunks.length := lt_of_lt_of_le hnx h2
          have hstep : relay_step cap chunks ⟨sent, next, out, rd, false, lg⟩ false =
              ⟨sent, next + 1, out ++ chunks.getD next [], rd, false, lg⟩ := by
            simp [relay_step, hlag, hnx]
          rw [hstep]
          refine ⟨hnx, h2, ?_, h4, fun hw _ => by simp at hw⟩
          dsimp only
          rw [h3, List.take_succ, List.getElem?_eq_getElem hlen,
            List.getD_eq_getElem chunks [] hlen, List.flatten_append]
          simp
        · cases rd with
          | true =>
            have hsent := h4 rfl
            have hnext : next = sent := le_antisymm h1 (le_of_not_lt hnx)
            have hstep : relay_step cap chunks ⟨sent, next, out, true, false, lg⟩ false =
                ⟨sent, next, out, true, true, lg⟩ := by simp [relay_step, hlag, hnx]
            rw [hstep]
            refine ⟨h1, h2, h3, fun _ => hsent, fun _ _ => ?_⟩
            dsimp only
            rw [h3, hnext, hsent, List.take_length]
          | false =>
            have hstep : relay_step cap chunks ⟨sent, next, out, false, false, lg⟩ false =
                ⟨sent, next, out, false, false, lg⟩ := by simp [relay_step, hlag, hnx]
            rw [hstep]
            exact ⟨h1, h2, h3, by simp, by simp⟩

/-- `RelayInv` holds after running any schedule. -/
theorem relay_run_inv (cap : Nat) (chunks : List (List Nat))
    (sched : List Bool) : RelayInv chunks (relay_run cap chunks sched) := by
  have hgen : ∀ (sched' : List Bool) (s : RelayState), RelayInv chunks s →
      RelayInv chunks (sched'.foldl (relay_step cap chunks) s) := by
    intro sched'
    induction sched' with
    | nil =>
      intro s hs
      simpa using hs
    | cons x rest ih =>
      intro s hs
      rw [List.foldl_cons]
      exact ih _ (relay_step_inv cap chunks s x hs)
  have hin : RelayInv chunks relay_init := by
    refine ⟨le_refl 0, Nat.zero_le _, rfl, ?_, ?_⟩ <;> simp [relay_init]
  exact hgen sched relay_init hin

/-- A capturer emitting 17 one-byte chunks, enough to overflow the relay's
broadcast channel (capacity 16 = `broadcast::channel(10)` rounded up to the
next power of two) when the writer does not run. -/
def lag_chunks : List (List Nat) :=
  (List.range 17).map fun b => [b]

/-- A schedule in which the reader sends all 17 chunks before the pipe
writer performs its first `recv`. -/
def lag_sched : List Bool :=
  List.replicate 17 true ++ [false]

/-- Claim C1 is false as stated: there is a real execution of the tapped
relay in which bytes read from the capturer are never written to the
transcoder.  If the writer falls more than the broadcast capacity behind
(here: 17 one-byte chunks sent before its first `recv`), `recv` returns
`RecvError::Lagged`, the `while let Ok(..)` pipe loop breaks, and the
writer terminates having written nothing — dropping all 17 bytes. -/
theorem c1_counterexample :
    (relay_run 16 lag_chunks lag_sched).lagged = true ∧
    (relay_run 16 lag_chunks lag_sched).writer_done = true ∧
    (relay_run 16 lag_chunks lag_sched).out = [] ∧
    lag_chunks.flatten ≠ [] := by decide

/-- Claim C1 (amended): the bytes the tapped relay writes to the
transcoder's stdin are always an order-preserving, gap-free prefix of the
bytes read from the capturer (the concatenation of the first `k` chunks for
some `k`); whenever the pipe writer runs to completion without ever lagging
behind the broadcast channel, every byte read is written; in particular the
100-byte two-chunk scenario delivers exactly the full sequence
`0x00..0x63` in order. -/
theorem c1_relay_order (cap : Nat) (chunks : List (List Nat))
    (sched : List Bool)
    (hdone : (relay_run cap chunks sched).writer_done = true)
    (hnolag : (relay_run cap chunks sched).lagged = false) :
    (∀ (cap₁ : Nat) (chunks₁ : List (List Nat)) (sched₁ : List Bool),
      ∃ k, k ≤ chunks₁.length ∧
        (relay_run cap₁ chunks₁ sched₁).out = (chunks₁.take k).flatten) ∧
    (relay_run cap chunks sched).out = chunks.flatten ∧
    (relay_run 16 demo_chunks demo_sched).out = List.range 100 := by
  refine ⟨?_, ?_, ?_⟩
  · intro cap₁ chunks₁ sched₁
    obtain ⟨h1, h2, h3, h4, h5⟩ := relay_run_inv cap₁ chunks₁ sched₁
    exact ⟨(relay_run cap₁ chunks₁ sched₁).next, le_trans h1 h2, h3⟩
  · obtain ⟨h1, h2, h3, h4, h5⟩ := relay_run_inv cap chunks sched
    exact h5 hdone hnolag
  · decide

/-- Witness for C1 (amended) at the spec's 100-byte two-chunk scenario. -/
theorem c1_witness :
    (relay_run 16 demo_chunks demo_sched).out = demo_chunks.flatten ∧
    (relay_run 16 demo_chunks demo_sched).out = List.range 100 :=
  ⟨(c1_relay_order 16 demo_chunks demo_sched (by decide) (by decide)).2.1,
   (c1_relay_order 16 demo_chunks demo_sched (by decide) (by decide)).2.2⟩

/-- The teardown performed by `LiveStreamState::stop` never contains a
bootstrap attempt. -/
theorem bootstrap_not_in_stop_actions (s : LiveStreamState) :
    Action.bootstrap_attempt ∉ (s.stop).2 := by
  obtain ⟨p1, p2, p3, p4, run, r⟩ := s
  cases p1 <;> cases p2 <;> cases p3 <;> cases p4 <;>
    simp [LiveStreamState.stop, LiveStreamState.stop_actions]

/-- When a capturer handle is present, `LiveStreamState::stop` stops it. -/
theorem stop_rpicam_in_stop_actions (s : LiveStreamState)
    (h : s.rpicam_process.isSome = true) :
    Action.stop_rpicam ∈ (s.stop).2 := by
  obtain ⟨p1, p2, p3, p4, run, r⟩ := s
  cases p1 with
  | none => simp at h
  | some pc =>
    cases p2 <;> cases p3 <;> cases p4 <;>
      simp [LiveStreamState.stop, LiveStreamState.stop_actions]

/-- Invariant of the watch-task / watchdog interleaving: once the pipeline
is observed down or actually down, the capturer has already been stopped,
and every bootstrap attempt in the trace is preceded by a capturer stop. -/
theorem wstep_invariant (g₀ : WatchScenario)
    (hrun : g₀.st.running = true) (hcap : g₀.st.rpicam_process.isSome = true)
    (hobs : g₀.observed_down = false) :
    ∀ (evs : List Action) (g : WatchScenario), WStep g₀ evs g →
      (g.observed_down = true → Action.stop_rpicam ∈ evs) ∧
      (g.st.running = false → Action.stop_rpicam ∈ evs) ∧
      (g.watch_pending = true → g.st.rpicam_process.isSome = true) ∧
      (∀ n, evs[n]? = some Action.bootstrap_attempt →
        Action.stop_rpicam ∈ evs.take n) := by
  intro evs g h
  induction h with
  | refl =>
    refine ⟨fun ho => absurd ho (by simp [hobs]),
            fun hr => absurd hr (by simp [hrun]),
            fun _ => hcap,
            fun n hn => by simp at hn⟩
  | watch_fires evs₁ g₂ hstep hw ih =>
    obtain ⟨ihA, ihB, ihC, ihD⟩ := ih
    have hmem : Action.stop_rpicam ∈ (g₂.st.stop).2 :=
      stop_rpicam_in_stop_actions g₂.st (ihC hw)
    refine ⟨?_, ?_, ?_, ?_⟩
    · intro ho
      dsimp only at ho
      exact List.mem_append_left _ (ihA ho)
    · intro _
      exact List.mem_append_right _ hmem
    · intro hwp
      dsimp only at hwp
      simp at hwp
    · intro n hn
      by_cases hlen : n < evs₁.length
      · rw [List.getElem?_append] at hn
        rw [if_pos hlen] at hn
        rw [List.take_append_of_le_length (le_of_lt hlen)]
        exact ihD n hn
      · rw [List.getElem?_append] at hn
        rw [if_neg hlen] at hn
        exact absurd (List.getElem?_mem hn)
          (bootstrap_not_in_stop_actions g₂.st)
  | wd_check_live evs₁ g₂ hstep hlive ih => exact ih
  | wd_check_down evs₁ g₂ hstep hdown ih =>
    obtain ⟨ihA, ihB, ihC, ihD⟩ := ih
    exact ⟨fun _ => ihB hdown, ihB, ihC, ihD⟩
  | wd_boot evs₁ g₂ outcome hstep hobs₂ hbudget ih =>
    obtain ⟨ihA, ihB, ihC, ihD⟩ := ih
    have hin : Action.stop_rpicam ∈ evs₁ := ihA hobs₂
    refine ⟨?_, ?_, ?_, ?_⟩
    · intro ho
      dsimp only at ho
      simp at ho
    · intro _
      exact List.mem_append_left _ hin
    · intro hwp
      dsimp only at hwp ⊢
      cases outcome with
      | none => exact ihC hwp
      | some b => simp [LiveStreamState.start]
    · intro n hn
      by_cases hlen : n < evs₁.length
      · rw [List.getElem?_append] at hn
        rw [if_pos hlen] at hn
        rw [List.take_append_of_le_length (le_of_lt hlen)]
        exact ihD n hn
      · rw [List.getElem?_append] at hn
        rw [if_neg hlen] at hn
        have hne : n = evs₁.length := by
          rcases Nat.lt_or_ge (n - evs₁.length) 1 with hlt | hge
          · omega
          · rw [show n - evs₁.length = (n - evs₁.length - 1) + 1 by omega] at hn
            simp at hn
        subst hne
        rw [List.take_append_of_le_length (le_refl _), List.take_length]
        exact hin

/-- Claim C5: in every interleaved execution starting from a live pipeline
(capturer handle present) with the watch task pending after the
transcoder's unexpected exit, every bootstrap attempt in the trace is
preceded by a `stop()` of the capturer's `ProcessControl` — in particular
the capturer is stopped before the watchdog's next bootstrap. -/
theorem c5_stop_capturer_before_bootstrap (g₀ : WatchScenario)
    (evs : List Action) (g : WatchScenario) (h : WStep g₀ evs g)
    (hrun : g₀.st.running = true) (hcap : g₀.st.rpicam_process.isSome = true)
    (hobs : g₀.observed_down = false) :
    ∀ n, evs[n]? = some Action.bootstrap_attempt →
      Action.stop_rpicam ∈ evs.take n :=
  (wstep_invariant g₀ hrun hcap hobs evs g h).2.2.2

/-- A live pipeline: capturer and transcoder handles, relay and watch
tasks all present. -/
def live_state : LiveStreamState :=
  ⟨some ⟨"rpicam-vid", 100, some 0, false⟩,
   some ⟨"ffmpeg", 101, some 0, false⟩,
   some 0, some 1, true, 0⟩

/-- The C5 scenario start: live pipeline, watch task pending (the
transcoder exited), watchdog not yet armed. -/
def live_g0 : WatchScenario := ⟨live_state, true, false⟩

/-- Witness for C5: a concrete interleaving — watch task fires, watchdog
observes the pipeline down, then bootstraps — in which the bootstrap
attempt (trace position 4) is preceded by the capturer stop. -/
theorem c5_witness :
    Action.stop_rpicam ∈
      ((([] ++ ((live_g0.st).stop).2) ++ [Action.bootstrap_attempt]).take 4) := by
  have d1 : WStep live_g0 [] live_g0 := WStep.refl live_g0
  have d2 := WStep.watch_fires live_g0 [] live_g0 d1 rfl
  have d3 := WStep.wd_check_down live_g0 _ _ d2 rfl
  have d4 := WStep.wd_boot live_g0 _ _ none d3 rfl (by decide)
  exact c5_stop_capturer_before_bootstrap live_g0 _ _ d4 rfl rfl rfl 4 (by decide)

end BabyPi
